import Mathlib

/-!
# Verification of the RoI occupancy-event pipeline

Shallow embedding of the repository's core: the region-of-interest filter
(`event_factory/roi/roi.py`) and the stateful slot-map occupancy tracker
(`event_factory/roi/business_logic.py`).  Python dictionaries become
structures, floats become `ℚ` (all arithmetic in the source is exact on the
inputs considered), and the tracker's in-place mutation becomes explicit
state passing: `process` takes and returns a `RoIBusinessLogic` state.
The nondeterministic `uuid4()` correlation identifier is passed in as an
explicit `eventId` argument.
-/

set_option autoImplicit false

namespace RoI

/-- A point in frame pixel space (`{'x': .., 'y': ..}` in the source). -/
structure Point where
  x : ℚ
  y : ℚ
  deriving Repr, DecidableEq

/-- An axis-aligned quadrilateral as four corner points in fixed order
(`boundingBox['coordinates'][0..3]`): top-left, top-right, bottom-right,
bottom-left. -/
structure BoundingBox where
  c0 : Point
  c1 : Point
  c2 : Point
  c3 : Point
  deriving Repr, DecidableEq

/-- One detector prediction.  The source's `related` field is always the
empty list on synthesized predictions and is never read by the code under
verification, so it is omitted. -/
structure Prediction where
  classId : String
  trackId : String
  confidence : ℚ
  boundingBox : BoundingBox
  deriving Repr, DecidableEq

/-- One detection per video frame; the opaque `frameMetadata` passthrough is
never read by the code under verification and is omitted. -/
structure Detection where
  predictions : List Prediction
  deriving Repr, DecidableEq

/-- One tracked chair slot: an entry of the tracker's `_chair_map`
(a dict `{'x': .., 'y': .., 'occupied': ..}` in the source). -/
structure Slot where
  x : ℚ
  y : ℚ
  occupied : Bool
  deriving Repr, DecidableEq

/-- The mutable state of `RoIBusinessLogic`: `_chair_count` and
`_chair_map`. -/
structure RoIBusinessLogic where
  chair_count : ℕ
  chair_map : List (List Slot)
  deriving Repr, DecidableEq

/-- The signals `EventStartedSignal` / `EventEndedSignal`, each wrapping a correlation
identifier and the (annotated) detection. -/
inductive EventSignal where
  | started (eventId : String) (detection : Detection)
  | ended (eventId : String) (detection : Detection)
  deriving Repr, DecidableEq

/-- The fresh tracker state built by `RoIBusinessLogic.__init__`. -/
def initState : RoIBusinessLogic := ⟨0, []⟩

/-! ## Region-of-interest filter (`roi.py`) -/

/-- The cyclic edge list of a polygon given by its vertices. -/
def polyEdges (poly : List Point) : List (Point × Point) :=
  poly.zip (poly.drop 1 ++ poly.take 1)

/-- Whether `pt` lies on the closed segment from `a` to `b`. -/
def onSegment (pt a b : Point) : Bool :=
  decide ((b.x - a.x) * (pt.y - a.y) = (b.y - a.y) * (pt.x - a.x)) &&
  decide (min a.x b.x ≤ pt.x) && decide (pt.x ≤ max a.x b.x) &&
  decide (min a.y b.y ≤ pt.y) && decide (pt.y ≤ max a.y b.y)

/-- Whether `pt` lies on the boundary of the polygon `poly`. -/
def onBoundary (poly : List Point) (pt : Point) : Bool :=
  (polyEdges poly).any (fun e => onSegment pt e.1 e.2)

/-- One step of even–odd ray casting: whether the horizontal ray from `pt`
crosses the edge `e`. -/
def rayCrosses (pt : Point) (e : Point × Point) : Bool :=
  (decide (e.1.y > pt.y) != decide (e.2.y > pt.y)) &&
  decide (pt.x < (e.2.x - e.1.x) * (pt.y - e.1.y) / (e.2.y - e.1.y) + e.1.x)

/-- Even–odd ray-casting parity of `pt` against the polygon `poly`: `true`
for points in the interior, `false` for points in the exterior (its value on
boundary points is irrelevant below, where the boundary is tested
separately). -/
def rayCast (poly : List Point) (pt : Point) : Bool :=
  (polyEdges poly).foldl (fun acc e => if rayCrosses pt e then !acc else acc) false

/-- Modelled from the documented semantics of the third-party call
`shapely.geometry.polygon.Polygon(region).contains(point)` used by
`RegionOfInterest.__pred_is_inside_region`: `contains` holds iff the point
lies in the polygon's **interior** — a point exactly on the boundary is NOT
contained (shapely's boundary-inclusive predicate would be `covers`, which
the source does not use). -/
def shapelyContains (poly : List Point) (pt : Point) : Bool :=
  rayCast poly pt && !onBoundary poly pt

/-- The "foot point" of a prediction, from `__pred_is_inside_region`:
`x = (min x + max x) // 2` (Python floor division) and `y = max y` over the
bounding box's corners. -/
def footPoint (p : Prediction) : Point :=
  let b := p.boundingBox
  let xMin := min (min b.c0.x b.c1.x) (min b.c2.x b.c3.x)
  let xMax := max (max b.c0.x b.c1.x) (max b.c2.x b.c3.x)
  let yMax := max (max b.c0.y b.c1.y) (max b.c2.y b.c3.y)
  ⟨(⌊(xMin + xMax) / 2⌋ : ℤ), yMax⟩

/-- Embeds `RegionOfInterest.__pred_is_inside_region`. -/
def predIsInsideRegion (region : List Point) (p : Prediction) : Bool :=
  shapelyContains region (footPoint p)

/-- Embeds `RegionOfInterest.process`: keep only the predictions whose foot point
the region polygon contains. -/
def roiProcess (region : List Point) (d : Detection) : Detection :=
  { d with predictions := d.predictions.filter (predIsInsideRegion region) }

/-! ## Tracker: annotation helpers (`_add_count`, `_create_point`,
`_insert_info`) -/

/-- The number of slots of the map currently marked `occupied`
(the counting loop at the top of `_add_count`). -/
def occupiedChairs (m : List (List Slot)) : ℕ :=
  (m.map (fun line => (line.filter (fun c => c.occupied)).length)).sum

/-- Embeds `RoIBusinessLogic._add_count`: the synthetic summary prediction.  The
free count is computed in `ℤ` because Python integer subtraction is
unrestricted. -/
def addCount (s : RoIBusinessLogic) : Prediction :=
  let total := s.chair_count
  let occupied := occupiedChairs s.chair_map
  let free : ℤ := (total : ℤ) - (occupied : ℤ)
  { classId := s!"Total de caideras: {total} | Cadeiras ocupadas: {occupied} | Cadeiras livres: {free}",
    trackId := "",
    confidence := 9/10,
    boundingBox := ⟨⟨0, 0⟩, ⟨1, 0⟩, ⟨1, 1⟩, ⟨0, 1⟩⟩ }

/-- Embeds `RoIBusinessLogic._create_point`: a synthetic marker prediction whose
bounding box runs from the given point to the point shifted by `(+2, +2)`. -/
def createPoint (point : Slot) (name : String) : Prediction :=
  { classId := name,
    trackId := "",
    confidence := 9/10,
    boundingBox := ⟨⟨point.x, point.y⟩, ⟨point.x + 2, point.y⟩,
                    ⟨point.x + 2, point.y + 2⟩, ⟨point.x, point.y + 2⟩⟩ }

/-- The marker label used by `_insert_info` for row `i`. -/
def markerName (i : ℕ) (point : Slot) : String :=
  if point.occupied then s!"M{i}(ocupado)" else s!"M{i}(livre)"

/-- The per-slot marker predictions appended by `_insert_info`'s nested
loop, rows numbered from `i` upward. -/
def markers (i : ℕ) : List (List Slot) → List Prediction
  | [] => []
  | line :: rest =>
      line.map (fun point => createPoint point (markerName i point)) ++ markers (i + 1) rest

/-- Embeds `RoIBusinessLogic._insert_info`: append the summary prediction and the
per-slot markers to the detection. -/
def insertInfo (s : RoIBusinessLogic) (d : Detection) : Detection :=
  { d with predictions := d.predictions ++ [addCount s] ++ markers 0 s.chair_map }

/-! ## Tracker: calibration (`_calculate_medium_point`,
`_create_chair_map`) -/

/-- Embeds `RoIBusinessLogic._calculate_medium_point`. -/
def calculateMediumPoint (chair : Prediction) : Point :=
  let b := chair.boundingBox
  ⟨(b.c1.x - b.c0.x) / 2 + b.c0.x, (b.c2.y - b.c1.y) / 2 + b.c1.y⟩

/-- A prediction's medium point as a fresh (unoccupied) slot candidate,
from the head of `_create_chair_map`'s loop body. -/
def toSlot (chair : Prediction) : Slot :=
  let p := calculateMediumPoint chair
  ⟨p.x, p.y, false⟩

/-- Whether candidate `c` is within the row tolerance of anchor `m`:
`c.y < m.y + 55 and c.y > m.y - 55` in the source. -/
def nearAnchor (c m : Slot) : Bool :=
  decide (c.y < m.y + 55) && decide (c.y > m.y - 55)

/-- The inner `for i in range(0, len(main_chairs))` loop of
`_create_chair_map`: append `c` to every row whose anchor it is near;
the second component is the loop's `added` flag. -/
def appendToRows (c : Slot) : List (List Slot) → List Slot → List (List Slot) × Bool
  | line :: matrixRest, m :: mainsRest =>
      let r := appendToRows c matrixRest mainsRest
      if nearAnchor c m then ((line ++ [c]) :: r.1, true) else (line :: r.1, r.2)
  | matrix, _ => (matrix, false)

/-- One iteration of `_create_chair_map`'s outer loop, acting on the pair
`(matrix_chairs, main_chairs)`. -/
def clusterStep (acc : List (List Slot) × List Slot) (c : Slot) :
    List (List Slot) × List Slot :=
  if acc.2.isEmpty then (acc.1 ++ [[c]], acc.2 ++ [c])
  else
    let r := appendToRows c acc.1 acc.2
    if r.2 then (r.1, acc.2) else (r.1 ++ [[c]], acc.2 ++ [c])

/-- The clustering phase of `_create_chair_map`: fold the predictions'
medium points into `(matrix_chairs, main_chairs)`. -/
def clusterChairs (preds : List Prediction) : List (List Slot) × List Slot :=
  preds.foldl (fun acc chair => clusterStep acc (toSlot chair)) ([], [])

/-- Python's `list.pop(i)`: remove the element at index `i`. -/
def popAt (l : List (List Slot)) (i : ℕ) : List (List Slot) :=
  l.take i ++ l.drop (i + 1)

/-- The `remove` list built by `_create_chair_map`: indices of rows with at
most 4 members, each prepended (`remove.insert(0, i)`), so the result lists
them in descending order. -/
def removeIndices (matrix : List (List Slot)) : List ℕ :=
  (List.range matrix.length).foldl
    (fun acc i => if (matrix.getD i []).length ≤ 4 then i :: acc else acc) []

/-- The noise-rejection phase of `_create_chair_map`: `pop` each index of
the `remove` list in turn. -/
def removeShortRows (matrix : List (List Slot)) : List (List Slot) :=
  (removeIndices matrix).foldl popAt matrix

/-- Embeds `RoIBusinessLogic._create_chair_map`. -/
def createChairMap (d : Detection) : List (List Slot) :=
  removeShortRows (clusterChairs d.predictions).1

/-! ## Tracker: steady-state occupancy re-evaluation
(`_check_chair_occupied`, `_check_chair_map`) -/

/-- Whether the bounding box of prediction `p` contains the position of slot
`c`: the two nested interval tests of `_check_chair_occupied`, both
inclusive (`>=`/`<=`) at every edge. -/
def coveredBy (c : Slot) (p : Prediction) : Bool :=
  decide (c.x ≥ p.boundingBox.c0.x) && decide (c.x ≤ p.boundingBox.c1.x) &&
  decide (c.y ≥ p.boundingBox.c1.y) && decide (c.y ≤ p.boundingBox.c2.y)

/-- Embeds `RoIBusinessLogic._check_chair_occupied`, acting on the single slot it
reads and writes; returns the updated slot and the function's return value
(whether the slot changed state).  The source scans predictions in order
and acts on the first one whose box contains the slot's position. -/
def checkChairOccupied (c : Slot) : List Prediction → Slot × Bool
  | [] => if c.occupied then (c, false) else ({ c with occupied := true }, true)
  | p :: rest =>
      if coveredBy c p then
        if !c.occupied then (c, false) else ({ c with occupied := false }, true)
      else checkChairOccupied c rest

/-- The inner (per-row) loop of `_check_chair_map`. -/
def checkRow (preds : List Prediction) : List Slot → List Slot × Bool
  | [] => ([], false)
  | c :: rest =>
      let r := checkChairOccupied c preds
      let rr := checkRow preds rest
      (r.1 :: rr.1, r.2 || rr.2)

/-- Embeds `RoIBusinessLogic._check_chair_map`: re-evaluate every slot, returning
the updated map and whether any slot changed. -/
def checkChairMap (preds : List Prediction) : List (List Slot) → List (List Slot) × Bool
  | [] => ([], false)
  | line :: rest =>
      let r := checkRow preds line
      let rr := checkChairMap preds rest
      (r.1 :: rr.1, r.2 || rr.2)

/-! ## Tracker: event creation and `process` -/

/-- Embeds `RoIBusinessLogic._create_event` with the `uuid4()` identifier passed
explicitly. -/
def createEvent (eventId : String) (d : Detection) : List EventSignal :=
  [.started eventId d, .ended eventId d]

/-- Embeds `RoIBusinessLogic.process` in state-passing form.  Returns the new
tracker state and the source's return value (`events if events else None`).
On an empty `_chair_map` it runs calibration — building the map, adding the
row lengths to `_chair_count`, annotating and emitting unconditionally; on a
non-empty map it re-evaluates occupancy and emits only if some slot
changed. -/
def process (s : RoIBusinessLogic) (eventId : String) (d : Detection) :
    RoIBusinessLogic × Option (List EventSignal) :=
  if s.chair_map.isEmpty then
    let m := createChairMap d
    let s' : RoIBusinessLogic :=
      ⟨s.chair_count + (m.map List.length).sum, m⟩
    (s', some (createEvent eventId (insertInfo s' d)))
  else
    let r := checkChairMap d.predictions s.chair_map
    let s' : RoIBusinessLogic := { s with chair_map := r.1 }
    if r.2 then (s', some (createEvent eventId (insertInfo s' d)))
    else (s', none)

/-! ## Concrete example inputs, used in closed instance theorems -/

/-- A 4-corner box of width and height 4 whose top-left corner is `(x, y)`. -/
def exBox (x y : ℚ) : BoundingBox :=
  ⟨⟨x, y⟩, ⟨x + 4, y⟩, ⟨x + 4, y + 4⟩, ⟨x, y + 4⟩⟩

/-- A concrete chair prediction with box `exBox x y`. -/
def exPred (x y : ℚ) : Prediction := ⟨"chair", "", 9/10, exBox x y⟩

/-- A frame with three chair predictions forming a single row of three
centers: calibration clusters them into one row and then discards it. -/
def exRow3 : Detection := ⟨[exPred 0 0, exPred 10 0, exPred 20 0]⟩

/-- A frame with five chair predictions forming a single row of five
centers: calibration keeps the row. -/
def exRow5 : Detection :=
  ⟨[exPred 0 0, exPred 10 0, exPred 20 0, exPred 30 0, exPred 40 0]⟩

/-- The square region polygon of the spec's end-to-end scenario. -/
def exSquare : List Point := [⟨0, 0⟩, ⟨10, 0⟩, ⟨10, 10⟩, ⟨0, 10⟩]

/-- A prediction whose foot point `(5, 10)` lies exactly on the boundary of
`exSquare`. -/
def exBoundaryPred : Prediction :=
  ⟨"person", "", 9/10, ⟨⟨4, 6⟩, ⟨6, 6⟩, ⟨6, 10⟩, ⟨4, 10⟩⟩⟩

/-- A prediction whose foot point `(5, 5)` lies strictly inside
`exSquare`. -/
def exInsidePred : Prediction :=
  ⟨"person", "", 9/10, ⟨⟨4, 2⟩, ⟨6, 2⟩, ⟨6, 5⟩, ⟨4, 5⟩⟩⟩

/-- A calibrated one-slot tracker state whose slot at `(5, 5)` is free. -/
def exState1 : RoIBusinessLogic := ⟨1, [[⟨5, 5, false⟩]]⟩

/-- A calibrated one-slot tracker state whose slot at `(5, 5)` is
occupied. -/
def exStateOcc : RoIBusinessLogic := ⟨1, [[⟨5, 5, true⟩]]⟩

/-- A one-row clustering accumulator: one row anchored at `(0, 0)`. -/
def exAcc : List (List Slot) × List Slot := ([[⟨0, 0, false⟩]], [⟨0, 0, false⟩])

/-- A candidate center at `y = 50`, within the row tolerance of the anchor
of `exAcc`. -/
def exCand : Slot := ⟨0, 50, false⟩

end RoI

/-! ## Helper lemmas -/

namespace RoI

theorem coveredBy_set_occupied (c : Slot) (b : Bool) :
    coveredBy ⟨c.x, c.y, b⟩ = coveredBy c := rfl

/-- Characterization of `checkChairOccupied`: the result depends only on
whether any prediction's box contains the slot's position, and on the slot's
current `occupied` flag. -/
theorem checkChairOccupied_eq (c : Slot) (preds : List Prediction) :
    checkChairOccupied c preds =
      if preds.any (coveredBy c) then
        if c.occupied then (⟨c.x, c.y, false⟩, true) else (c, false)
      else
        if c.occupied then (c, false) else (⟨c.x, c.y, true⟩, true) := by
  induction preds with
  | nil => simp [checkChairOccupied]
  | cons p rest ih =>
      by_cases h : coveredBy c p = true
      · cases hc : c.occupied <;> simp [checkChairOccupied, h, hc]
      · simp only [Bool.not_eq_true] at h
        simp [checkChairOccupied, h, ih]

theorem checkChairOccupied_fst_x (c : Slot) (preds : List Prediction) :
    (checkChairOccupied c preds).1.x = c.x := by
  rw [checkChairOccupied_eq]
  split <;> split <;> rfl

theorem checkChairOccupied_fst_y (c : Slot) (preds : List Prediction) :
    (checkChairOccupied c preds).1.y = c.y := by
  rw [checkChairOccupied_eq]
  split <;> split <;> rfl

/-- Re-evaluating a slot that was just re-evaluated against the same
predictions changes nothing. -/
theorem checkChairOccupied_idem (c : Slot) (preds : List Prediction) :
    checkChairOccupied (checkChairOccupied c preds).1 preds =
      ((checkChairOccupied c preds).1, false) := by
  rw [checkChairOccupied_eq c preds]
  by_cases h : preds.any (coveredBy c) = true
  · cases hc : c.occupied <;>
      simp [h, hc, checkChairOccupied_eq, coveredBy_set_occupied]
  · simp only [Bool.not_eq_true] at h
    cases hc : c.occupied <;>
      simp [h, hc, checkChairOccupied_eq, coveredBy_set_occupied]

theorem checkRow_idem (preds : List Prediction) (row : List Slot) :
    checkRow preds (checkRow preds row).1 = ((checkRow preds row).1, false) := by
  induction row with
  | nil => rfl
  | cons c rest ih => simp [checkRow, checkChairOccupied_idem, ih]

theorem checkChairMap_idem (preds : List Prediction) (m : List (List Slot)) :
    checkChairMap preds (checkChairMap preds m).1 = ((checkChairMap preds m).1, false) := by
  induction m with
  | nil => rfl
  | cons line rest ih => simp [checkChairMap, checkRow_idem, ih]

theorem checkRow_strip (preds : List Prediction) (row : List Slot) :
    ((checkRow preds row).1).map (fun c => (c.x, c.y)) = row.map (fun c => (c.x, c.y)) := by
  induction row with
  | nil => rfl
  | cons c rest ih =>
      simp [checkRow, ih, checkChairOccupied_fst_x, checkChairOccupied_fst_y]

theorem checkChairMap_strip (preds : List Prediction) (m : List (List Slot)) :
    ((checkChairMap preds m).1).map (List.map (fun c => (c.x, c.y))) =
      m.map (List.map (fun c => (c.x, c.y))) := by
  induction m with
  | nil => rfl
  | cons line rest ih => simp [checkChairMap, ih, checkRow_strip]

theorem checkChairMap_length (preds : List Prediction) (m : List (List Slot)) :
    ((checkChairMap preds m).1).length = m.length := by
  induction m with
  | nil => rfl
  | cons line rest ih => simp [checkChairMap, ih]

theorem checkRow_no_preds (row : List Slot) :
    (checkRow [] row).1 = row.map (fun c => ⟨c.x, c.y, true⟩) := by
  induction row with
  | nil => rfl
  | cons c rest ih =>
      cases c with
      | mk x y occ => cases occ <;> simp [checkRow, checkChairOccupied, ih]

theorem checkChairMap_no_preds (m : List (List Slot)) :
    (checkChairMap [] m).1 = m.map (List.map (fun c => ⟨c.x, c.y, true⟩)) := by
  induction m with
  | nil => rfl
  | cons line rest ih => simp [checkChairMap, ih, checkRow_no_preds]

theorem foldl_prepend_filter (q : ℕ → Prop) [DecidablePred q] (l : List ℕ) :
    ∀ acc : List ℕ,
      l.foldl (fun acc i => if q i then i :: acc else acc) acc =
        (l.filter (fun i => decide (q i))).reverse ++ acc := by
  induction l with
  | nil => simp
  | cons a t ih =>
      intro acc
      by_cases h : q a <;> simp [List.filter_cons, h, ih]

theorem removeIndices_eq (m : List (List Slot)) :
    removeIndices m =
      ((List.range m.length).filter
        (fun i => decide ((m.getD i []).length ≤ 4))).reverse := by
  rw [removeIndices,
    foldl_prepend_filter (fun i => (m.getD i []).length ≤ 4) (List.range m.length) []]
  simp

theorem popAt_cons_succ (r : List Slot) (t : List (List Slot)) (i : ℕ) :
    popAt (r :: t) (i + 1) = r :: popAt t i := rfl

theorem foldr_popAt_map_succ (l : List ℕ) (r : List Slot) (t : List (List Slot)) :
    (l.map Nat.succ).foldr (fun i acc => popAt acc i) (r :: t) =
      r :: l.foldr (fun i acc => popAt acc i) t := by
  induction l with
  | nil => rfl
  | cons a tl ih => simp [ih, popAt_cons_succ]

theorem badIndices_cons (r : List Slot) (t : List (List Slot)) :
    (List.range (r :: t).length).filter
        (fun i => decide (((r :: t).getD i []).length ≤ 4)) =
      (if r.length ≤ 4 then [0] else []) ++
        ((List.range t.length).filter
          (fun i => decide ((t.getD i []).length ≤ 4))).map Nat.succ := by
  rw [List.length_cons, List.range_succ_eq_map, List.filter_cons, List.filter_map]
  by_cases h : r.length ≤ 4 <;>
    simp [h, Function.comp_def, Nat.succ_eq_add_one, List.getElem?_cons_succ]

/-- The source's `remove`-and-`pop` idiom in `_create_chair_map` keeps
exactly the rows with strictly more than 4 members, in order. -/
theorem removeShortRows_eq_filter (m : List (List Slot)) :
    removeShortRows m = m.filter (fun r => decide (4 < r.length)) := by
  rw [removeShortRows, removeIndices_eq, List.foldl_reverse]
  induction m with
  | nil => rfl
  | cons r t ih =>
      rw [badIndices_cons, List.foldr_append, foldr_popAt_map_succ, ih, List.filter_cons]
      by_cases h : r.length ≤ 4
      · have h2 : ¬4 < r.length := Nat.not_lt.mpr h
        simp [h, h2, popAt]
      · have h2 : 4 < r.length := Nat.not_le.mp h
        simp [h, h2]

theorem createChairMap_eq (d : Detection) :
    createChairMap d =
      ((clusterChairs d.predictions).1).filter (fun r => decide (4 < r.length)) := by
  rw [createChairMap, removeShortRows_eq_filter]

/-- The inner loop of `_create_chair_map` appends the candidate to every row
whose anchor it is near (positionally zipped with the anchor list), and its
`added` flag is set iff some anchor is near. -/
theorem appendToRows_eq (c : Slot) :
    ∀ (matrix : List (List Slot)) (mains : List Slot),
      matrix.length = mains.length →
      appendToRows c matrix mains =
        (List.zipWith (fun line m => if nearAnchor c m then line ++ [c] else line)
            matrix mains,
          mains.any (nearAnchor c)) := by
  intro matrix
  induction matrix with
  | nil =>
      intro mains h
      cases mains with
      | nil => rfl
      | cons m mt => simp at h
  | cons line mt ih =>
      intro mains h
      cases mains with
      | nil => simp at h
      | cons m mainsRest =>
          simp only [List.length_cons, Nat.add_right_cancel_iff] at h
          by_cases hn : nearAnchor c m = true <;>
            simp [appendToRows, hn, ih mainsRest h]

theorem zipWith_append_head (c : Slot) :
    ∀ (matrix : List (List Slot)) (mains : List Slot),
      matrix.map List.head? = mains.map some →
      (List.zipWith (fun line m => if nearAnchor c m then line ++ [c] else line)
          matrix mains).map List.head? = mains.map some := by
  intro matrix
  induction matrix with
  | nil =>
      intro mains h
      cases mains with
      | nil => rfl
      | cons m mt => simp at h
  | cons line mt ih =>
      intro mains h
      cases mains with
      | nil => simp at h
      | cons m mainsRest =>
          simp only [List.map_cons, List.cons.injEq] at h
          obtain ⟨h1, h2⟩ := h
          by_cases hn : nearAnchor c m = true <;>
            simp [hn, ih mainsRest h2, List.head?_append, h1]

/-- One clustering step preserves the invariant that each row's first
element is that row's anchor. -/
theorem clusterStep_inv (acc : List (List Slot) × List Slot) (c : Slot)
    (h : acc.1.map List.head? = acc.2.map some) :
    (clusterStep acc c).1.map List.head? = (clusterStep acc c).2.map some := by
  by_cases he : acc.2.isEmpty
  · have h2 : acc.2 = [] := by simpa using he
    have h1 : acc.1 = [] := by simpa [h2] using h
    simp [clusterStep, he, h1, h2]
  · have hlen : acc.1.length = acc.2.length := by
      simpa using congrArg List.length h
    simp only [clusterStep, he, Bool.false_eq_true, if_false]
    rw [appendToRows_eq c acc.1 acc.2 hlen]
    by_cases ha : acc.2.any (nearAnchor c) = true <;>
      simp [ha, zipWith_append_head c acc.1 acc.2 h, h]

/-- Along the whole calibration fold, each row's first element is that
row's anchor (and rows and anchors correspond one to one, in order). -/
theorem clusterChairs_inv (preds : List Prediction) :
    (clusterChairs preds).1.map List.head? = (clusterChairs preds).2.map some := by
  suffices h : ∀ acc : List (List Slot) × List Slot,
      acc.1.map List.head? = acc.2.map some →
      (preds.foldl (fun acc chair => clusterStep acc (toSlot chair)) acc).1.map List.head? =
        (preds.foldl (fun acc chair => clusterStep acc (toSlot chair)) acc).2.map some by
    exact h ([], []) rfl
  induction preds with
  | nil => intro acc h; exact h
  | cons p rest ih => intro acc h; exact ih _ (clusterStep_inv acc (toSlot p) h)

theorem markers_eq_enumFrom (m : List (List Slot)) :
    ∀ i, markers i m =
      (List.enumFrom i m).flatMap
        (fun p => p.2.map (fun pt => createPoint pt (markerName p.1 pt))) := by
  induction m with
  | nil => intro i; rfl
  | cons row rest ih =>
      intro i
      simp [markers, List.enumFrom_cons, List.flatMap_cons, ih]

/-! ## Claim theorems -/

/-- Claim C10 (confirmed): the steady-state coverage test of
`_check_chair_occupied` is inclusive at all four edges of the bounding box:
a slot position with `x` equal to the box's left (`coordinates[0].x`) or
right (`coordinates[1].x`) edge, or `y` equal to the box's top
(`coordinates[1].y`) or bottom (`coordinates[2].y`) edge, counts as covered
by that prediction. -/
theorem claim_C10 (c : Slot) (p : Prediction) :
    coveredBy c p = true ↔
      p.boundingBox.c0.x ≤ c.x ∧ c.x ≤ p.boundingBox.c1.x ∧
        p.boundingBox.c1.y ≤ c.y ∧ c.y ≤ p.boundingBox.c2.y := by
  simp [coveredBy, ge_iff_le, and_assoc]

/-- Claim C1 is refuted at a concrete input: a calibrated state whose only
slot is occupied, and a steady-state detection with zero predictions.  The
claim predicts the slot is vacated (`occupied := false`) and marked changed
(so an event pair is emitted); the code leaves the slot occupied, reports no
change, and emits nothing. -/
theorem claim_C1_counterexample :
    checkChairOccupied ⟨5, 5, true⟩ [] = (⟨5, 5, true⟩, false) ∧
    checkChairOccupied ⟨5, 5, true⟩ [] ≠ (⟨5, 5, false⟩, true) ∧
    process exStateOcc "e" ⟨[]⟩ = (exStateOcc, none) := by
  refine ⟨by decide, by decide, by decide⟩

/-- Claim C1 (amended): the transition rule is the **inverse** of the one
claimed.  If a slot is `occupied = true` and its position IS contained in
some prediction's box this frame, it becomes free and is marked changed; if
it is `occupied = false` and NOT contained in any box, it becomes occupied
and is marked changed; in the two remaining cases it is unchanged.  In
particular a steady-state detection with zero predictions marks every
currently-free slot as occupied (and leaves occupied slots untouched). -/
theorem claim_C1 :
    (∀ (c : Slot) (preds : List Prediction),
      checkChairOccupied c preds =
        if preds.any (coveredBy c) then
          if c.occupied then (⟨c.x, c.y, false⟩, true) else (c, false)
        else
          if c.occupied then (c, false) else (⟨c.x, c.y, true⟩, true)) ∧
    (∀ m : List (List Slot),
      (checkChairMap [] m).1 = m.map (List.map (fun c => ⟨c.x, c.y, true⟩))) :=
  ⟨checkChairOccupied_eq, checkChairMap_no_preds⟩

/-- Claim C4 is refuted at a concrete input: from the uncalibrated state
with `chairCount = 7`, the three-chair frame `exRow3` leaves the tracker
state bit-for-bit unchanged (its only clustered row is discarded, no slot
exists, nothing changes) — yet `process` still emits a `Started`/`Ended`
pair instead of the `none` the claim's no-change clause requires. -/
theorem claim_C4_counterexample :
    (process ⟨7, []⟩ "e" exRow3).1 = ⟨7, []⟩ ∧
    (process ⟨7, []⟩ "e" exRow3).2 ≠ none := by
  have hc : (clusterChairs exRow3.predictions).1 =
      [[⟨2, 2, false⟩, ⟨12, 2, false⟩, ⟨22, 2, false⟩]] := by
    norm_num [clusterChairs, exRow3, exPred, exBox, toSlot,
      calculateMediumPoint, clusterStep, appendToRows, nearAnchor]
  have h3 : createChairMap exRow3 = [] := by
    rw [createChairMap_eq, hc]
    simp
  constructor
  · simp [process, h3]
  · simp [process, h3]

/-- Claim C4 (amended): whenever `process` emits anything, it is exactly
one `Started` and one `Ended` signal, in one list, sharing the one
correlation identifier and wrapping the same annotated detection; the
output is never an empty list and never more than one pair.  On a
**calibrated** (steady-state) frame the output is `none` exactly when no
slot changed; but — contrary to the claim — on an uncalibrated frame the
output is never `none`: the calibration branch emits a pair even when the
frame changes nothing. -/
theorem claim_C4 (s : RoIBusinessLogic) (eventId : String) (d : Detection) :
    ((process s eventId d).2 = none ∨
      ∃ d' : Detection,
        (process s eventId d).2 =
          some [EventSignal.started eventId d', EventSignal.ended eventId d'] ∧
        d' = insertInfo (process s eventId d).1 d) ∧
    (s.chair_map ≠ [] →
      ((process s eventId d).2 = none ↔
        (checkChairMap d.predictions s.chair_map).2 = false)) ∧
    (s.chair_map = [] → (process s eventId d).2 ≠ none) := by
  refine ⟨?_, ?_, ?_⟩
  · by_cases he : s.chair_map.isEmpty
    · right
      exact ⟨insertInfo (process s eventId d).1 d, by simp [process, he, createEvent], rfl⟩
    · by_cases hc : (checkChairMap d.predictions s.chair_map).2
      · right
        exact ⟨insertInfo (process s eventId d).1 d, by simp [process, he, hc, createEvent], rfl⟩
      · left
        simp [process, he, hc]
  · intro h
    have he : s.chair_map.isEmpty = false := by
      simpa [List.isEmpty_iff] using h
    by_cases hc : (checkChairMap d.predictions s.chair_map).2 = true
    · simp [process, he, hc]
    · simp only [Bool.not_eq_true] at hc
      simp [process, he, hc]
  · intro h
    have he : s.chair_map.isEmpty = true := by simp [h]
    simp [process, he]

/-- Instances of `claim_C4`: on the calibrated state `exStateOcc` the
empty frame changes nothing (the occupied slot is uncovered) and the
output is `none` iff the change flag is down; on the uncalibrated state
the three-chair frame changes nothing yet the output is not `none`. -/
theorem claim_C4_witness :
    ((process exStateOcc "e" ⟨[]⟩).2 = none ↔
        (checkChairMap ([] : List Prediction) exStateOcc.chair_map).2 = false) ∧
    (process ⟨7, []⟩ "e" exRow3).2 ≠ none :=
  ⟨(claim_C4 exStateOcc "e" ⟨[]⟩).2.1 (by decide),
    (claim_C4 ⟨7, []⟩ "e" exRow3).2.2 rfl⟩

/-- Claim C9 (confirmed): once the slot map is non-empty, `process`
preserves its whole structure — number of rows, slots per row, ordering and
every slot's position (here: the map with `occupied` erased is unchanged) —
and `chairCount` stays constant; only `occupied` flags may change. -/
theorem claim_C9 (s : RoIBusinessLogic) (eventId : String) (d : Detection)
    (h : s.chair_map ≠ []) :
    ((process s eventId d).1.chair_map).map (List.map (fun c => (c.x, c.y))) =
        s.chair_map.map (List.map (fun c => (c.x, c.y))) ∧
    (process s eventId d).1.chair_count = s.chair_count := by
  have he : s.chair_map.isEmpty = false := by
    simpa [List.isEmpty_iff] using h
  by_cases hc : (checkChairMap d.predictions s.chair_map).2 <;>
    simp [process, he, hc, checkChairMap_strip]

/-- Instance of `claim_C9` at the one-slot calibrated state `exState1` and
an empty steady-state frame. -/
theorem claim_C9_witness :
    exState1.chair_map ≠ [] ∧
    (((process exState1 "a" ⟨[]⟩).1.chair_map).map (List.map (fun c => (c.x, c.y))) =
        exState1.chair_map.map (List.map (fun c => (c.x, c.y))) ∧
      (process exState1 "a" ⟨[]⟩).1.chair_count = exState1.chair_count) :=
  ⟨by decide, claim_C9 exState1 "a" ⟨[]⟩ (by decide)⟩

/-- Claim C7 (confirmed): against a calibrated state, re-processing the
same frame's detection immediately after processing it once yields no event
and leaves the state fixed, since the second evaluation starts from the
already-updated slot states. -/
theorem claim_C7 (s : RoIBusinessLogic) (d : Detection) (e1 e2 : String)
    (h : s.chair_map ≠ []) (_hev : (process s e1 d).2.isSome = true) :
    process (process s e1 d).1 e2 d = ((process s e1 d).1, none) := by
  have he : s.chair_map.isEmpty = false := by
    simpa [List.isEmpty_iff] using h
  have h1 : (process s e1 d).1 =
      { s with chair_map := (checkChairMap d.predictions s.chair_map).1 } := by
    by_cases hc : (checkChairMap d.predictions s.chair_map).2 <;> simp [process, he, hc]
  have hne : (checkChairMap d.predictions s.chair_map).1 ≠ [] := by
    intro hnil
    have hlen := checkChairMap_length d.predictions s.chair_map
    rw [hnil] at hlen
    exact h (List.length_eq_zero.mp hlen.symm)
  have hne2 : ((checkChairMap d.predictions s.chair_map).1).isEmpty = false := by
    simpa [List.isEmpty_iff] using hne
  rw [h1]
  simp [process, hne2, checkChairMap_idem]

/-- Instance of `claim_C7`: the empty frame flips `exState1`'s free slot to
occupied (a change event); processing the same frame again returns no
event. -/
theorem claim_C7_witness :
    (exState1.chair_map ≠ [] ∧ (process exState1 "a" ⟨[]⟩).2.isSome = true) ∧
    process (process exState1 "a" ⟨[]⟩).1 "b" ⟨[]⟩ = ((process exState1 "a" ⟨[]⟩).1, none) :=
  ⟨⟨by decide, by decide⟩, claim_C7 exState1 ⟨[]⟩ "a" "b" (by decide) (by decide)⟩

/-- Claim C5 (confirmed): on the calibration frame the resulting slot map
is exactly the clustered rows with every row of 4 or fewer members removed
(a row of 5 or more is always kept, in order), and `chairCount` is the
total slot count across the surviving rows. -/
theorem claim_C5 (s : RoIBusinessLogic) (eventId : String) (d : Detection)
    (h : s.chair_map = []) (h0 : s.chair_count = 0) :
    (process s eventId d).1.chair_map =
        ((clusterChairs d.predictions).1).filter (fun r => decide (4 < r.length)) ∧
    (∀ row ∈ (process s eventId d).1.chair_map, 5 ≤ row.length) ∧
    (∀ row ∈ (clusterChairs d.predictions).1, 5 ≤ row.length →
        row ∈ (process s eventId d).1.chair_map) ∧
    (process s eventId d).1.chair_count =
        (((process s eventId d).1.chair_map).map List.length).sum := by
  have he : s.chair_map.isEmpty = true := by simp [h]
  have hmap : (process s eventId d).1.chair_map = createChairMap d := by
    simp [process, he]
  have hcnt : (process s eventId d).1.chair_count =
      s.chair_count + ((createChairMap d).map List.length).sum := by
    simp [process, he]
  refine ⟨?_, ?_, ?_, ?_⟩
  · rw [hmap, createChairMap_eq]
  · intro row hrow
    rw [hmap, createChairMap_eq] at hrow
    have h4 := (List.mem_filter.mp hrow).2
    simp only [decide_eq_true_eq] at h4
    omega
  · intro row hrow h5
    rw [hmap, createChairMap_eq]
    exact List.mem_filter.mpr ⟨hrow, by simp only [decide_eq_true_eq]; omega⟩
  · rw [hmap, hcnt, h0, Nat.zero_add]

/-- Instance of `claim_C5` on a fresh tracker and the five-chair single-row
frame `exRow5`. -/
theorem claim_C5_witness :
    (initState.chair_map = [] ∧ initState.chair_count = 0) ∧
    ((process initState "e" exRow5).1.chair_map =
        ((clusterChairs exRow5.predictions).1).filter (fun r => decide (4 < r.length)) ∧
      (∀ row ∈ (process initState "e" exRow5).1.chair_map, 5 ≤ row.length) ∧
      (∀ row ∈ (clusterChairs exRow5.predictions).1, 5 ≤ row.length →
          row ∈ (process initState "e" exRow5).1.chair_map) ∧
      (process initState "e" exRow5).1.chair_count =
          (((process initState "e" exRow5).1.chair_map).map List.length).sum) :=
  ⟨⟨rfl, rfl⟩, claim_C5 initState "e" exRow5 rfl rfl⟩

/-- Claim C2 is refuted at a concrete input: from the fresh state, a
calibration frame of three chair predictions in one row (whose only row is
discarded, `3 ≤ 4`).  The slot map does stay empty — but `process` still
returns a `Started`/`Ended` pair instead of no event. -/
theorem claim_C2_counterexample :
    (process initState "e" exRow3).1 = initState ∧
    (process initState "e" exRow3).2 ≠ none := by
  have hc : (clusterChairs exRow3.predictions).1 =
      [[⟨2, 2, false⟩, ⟨12, 2, false⟩, ⟨22, 2, false⟩]] := by
    norm_num [clusterChairs, exRow3, exPred, exBox, toSlot,
      calculateMediumPoint, clusterStep, appendToRows, nearAnchor]
  have h3 : createChairMap exRow3 = [] := by
    rw [createChairMap_eq, hc]
    simp
  constructor
  · simp [process, initState, h3]
  · simp [process, initState, h3]

/-- Claim C2 (amended): on every frame whose clustered rows all have 4 or
fewer members, the slot map stays empty and `chairCount` is unchanged (so
calibration is retried on the next frame) — but, contrary to the claim,
`process` does not return "no event": the calibration branch emits a
`Started`/`Ended` pair unconditionally, even when every row is
discarded. -/
theorem claim_C2 (s : RoIBusinessLogic) (eventId : String) (d : Detection)
    (h : s.chair_map = [])
    (hrows : ∀ row ∈ (clusterChairs d.predictions).1, row.length ≤ 4) :
    (process s eventId d).1 = ⟨s.chair_count, []⟩ ∧
    (process s eventId d).2 =
      some (createEvent eventId (insertInfo ⟨s.chair_count, []⟩ d)) := by
  have he : s.chair_map.isEmpty = true := by simp [h]
  have hmap : createChairMap d = [] := by
    rw [createChairMap_eq]
    rw [List.filter_eq_nil_iff]
    intro row hrow
    simp only [decide_eq_true_eq]
    exact Nat.not_lt.mpr (hrows row hrow)
  constructor
  · simp [process, he, hmap]
  · simp [process, he, hmap]

/-- Instance of `claim_C2` on a state with a nonzero `chairCount` left by
earlier frames and the three-chair single-row frame `exRow3`. -/
theorem claim_C2_witness :
    ((⟨7, []⟩ : RoIBusinessLogic).chair_map = [] ∧
      ∀ row ∈ (clusterChairs exRow3.predictions).1, row.length ≤ 4) ∧
    ((process ⟨7, []⟩ "e" exRow3).1 = ⟨7, []⟩ ∧
      (process ⟨7, []⟩ "e" exRow3).2 =
        some (createEvent "e" (insertInfo ⟨7, []⟩ exRow3))) := by
  have hc : (clusterChairs exRow3.predictions).1 =
      [[⟨2, 2, false⟩, ⟨12, 2, false⟩, ⟨22, 2, false⟩]] := by
    norm_num [clusterChairs, exRow3, exPred, exBox, toSlot,
      calculateMediumPoint, clusterStep, appendToRows, nearAnchor]
  have hrows : ∀ row ∈ (clusterChairs exRow3.predictions).1, row.length ≤ 4 := by
    rw [hc]
    intro row hrow
    simp only [List.mem_singleton] at hrow
    subst hrow
    decide
  exact ⟨⟨rfl, hrows⟩, claim_C2 ⟨7, []⟩ "e" exRow3 rfl hrows⟩

/-- Claim C3 is refuted at a concrete input: with the square region
`(0,0)-(10,0)-(10,10)-(0,10)`, a prediction whose foot point `(5, 10)` lies
exactly on the region's boundary is dropped by the filter, while the claim
says a boundary foot point passes (closed containment).  A strictly
interior foot point does pass. -/
theorem claim_C3_counterexample :
    footPoint exBoundaryPred = ⟨5, 10⟩ ∧
    onBoundary exSquare ⟨5, 10⟩ = true ∧
    roiProcess exSquare ⟨[exBoundaryPred]⟩ = ⟨[]⟩ ∧
    roiProcess exSquare ⟨[exInsidePred]⟩ = ⟨[exInsidePred]⟩ := by
  have hfootB : footPoint exBoundaryPred = ⟨5, 10⟩ := by
    norm_num [footPoint, exBoundaryPred, min_def, max_def]
  have hfootI : footPoint exInsidePred = ⟨5, 5⟩ := by
    norm_num [footPoint, exInsidePred, min_def, max_def]
  have hbd : onBoundary exSquare ⟨5, 10⟩ = true := by
    norm_num [onBoundary, polyEdges, exSquare, onSegment, min_def, max_def]
  refine ⟨hfootB, hbd, ?_, ?_⟩
  · simp [roiProcess, predIsInsideRegion, shapelyContains, hfootB, hbd]
  · have hbdI : onBoundary exSquare ⟨5, 5⟩ = false := by
      norm_num [onBoundary, polyEdges, exSquare, onSegment, min_def, max_def]
    have hray : rayCast exSquare ⟨5, 5⟩ = true := by
      norm_num [rayCast, polyEdges, exSquare, rayCrosses]
    simp [roiProcess, predIsInsideRegion, shapelyContains, hfootI, hbdI, hray]

/-- Claim C3 (amended): the filter keeps a prediction iff its foot point
lies **strictly inside** the polygon (even–odd ray-cast interior and not on
the boundary): strictly inside passes, strictly outside is dropped, and —
contrary to the claim — a foot point exactly on the boundary is dropped,
because shapely's `contains` tests open (interior) containment. -/
theorem claim_C3 (region : List Point) (d : Detection) (p : Prediction) :
    p ∈ (roiProcess region d).predictions ↔
      p ∈ d.predictions ∧
        rayCast region (footPoint p) = true ∧
        onBoundary region (footPoint p) = false := by
  simp [roiProcess, List.mem_filter, predIsInsideRegion, shapelyContains,
    Bool.not_eq_true', and_assoc]

/-- Claim C6 (confirmed): calibration clusters centers in prediction order;
every row's first element is its anchor; a candidate is appended to every
existing row whose anchor's `y` it is within the ±55 tolerance of
(non-exclusive membership, no tie-break), and it starts a new row — itself
becoming the anchor — exactly when it matches no existing anchor. -/
theorem claim_C6 :
    (∀ preds : List Prediction,
      (clusterChairs preds).1.map List.head? = (clusterChairs preds).2.map some) ∧
    (∀ (acc : List (List Slot) × List Slot) (c : Slot),
      acc.1.length = acc.2.length →
      clusterStep acc c =
        if acc.2.isEmpty then (acc.1 ++ [[c]], acc.2 ++ [c])
        else if acc.2.any (nearAnchor c) then
          (List.zipWith (fun line m => if nearAnchor c m then line ++ [c] else line)
              acc.1 acc.2, acc.2)
        else
          ((List.zipWith (fun line m => if nearAnchor c m then line ++ [c] else line)
              acc.1 acc.2) ++ [[c]], acc.2 ++ [c])) := by
  refine ⟨clusterChairs_inv, ?_⟩
  intro acc c hlen
  by_cases he : acc.2.isEmpty
  · simp [clusterStep, he]
  · simp [clusterStep, he, appendToRows_eq c acc.1 acc.2 hlen]

/-- Instance of the step branch of `claim_C6` at the one-row accumulator
`exAcc` and the candidate `exCand`, which is within tolerance of the
anchor. -/
theorem claim_C6_witness :
    exAcc.1.length = exAcc.2.length ∧
    clusterStep exAcc exCand =
      (if exAcc.2.isEmpty then (exAcc.1 ++ [[exCand]], exAcc.2 ++ [exCand])
       else if exAcc.2.any (nearAnchor exCand) then
         (List.zipWith (fun line m => if nearAnchor exCand m then line ++ [exCand] else line)
             exAcc.1 exAcc.2, exAcc.2)
       else
         ((List.zipWith (fun line m => if nearAnchor exCand m then line ++ [exCand] else line)
             exAcc.1 exAcc.2) ++ [[exCand]], exAcc.2 ++ [exCand])) :=
  ⟨rfl, claim_C6.2 exAcc exCand rfl⟩

/-- Claim C8 is refuted at a concrete input: for the slot at `(5, 5)` the
annotator's marker box runs from `(5, 5)` to `(7, 7)` — the slot position
is its top-left corner — not the `(4, 4)`–`(6, 6)` square that a 2×2 box
**centered** at the slot would be. -/
theorem claim_C8_counterexample :
    (insertInfo exState1 ⟨[]⟩).predictions[1]? =
        some (createPoint ⟨5, 5, false⟩ "M0(livre)") ∧
    (createPoint ⟨5, 5, false⟩ "M0(livre)").boundingBox =
        ⟨⟨5, 5⟩, ⟨7, 5⟩, ⟨7, 7⟩, ⟨5, 7⟩⟩ ∧
    (createPoint ⟨5, 5, false⟩ "M0(livre)").boundingBox ≠
        ⟨⟨4, 4⟩, ⟨6, 4⟩, ⟨6, 6⟩, ⟨4, 6⟩⟩ := by
  refine ⟨rfl, ?_, ?_⟩
  · norm_num [createPoint]
  · intro hcontra
    have hx := congrArg (fun b => b.c0.x) hcontra
    norm_num [createPoint] at hx

/-- Claim C8 (amended): annotating appends exactly one summary prediction —
label encoding the total, occupied and free slot counts, bounding box
spanning `(0,0)`–`(1,1)` — plus one marker prediction per slot, labelled
with the slot's row index and occupied/free state, whose bounding box is
the 2×2-unit square with its **top-left corner at** the slot's position
(spanning `(x, y)`–`(x+2, y+2)`), not centered on it. -/
theorem claim_C8 (s : RoIBusinessLogic) (d : Detection) :
    (insertInfo s d).predictions =
      d.predictions ++
        ((let total := s.chair_count
          let occupied := occupiedChairs s.chair_map
          let free : ℤ := (total : ℤ) - (occupied : ℤ)
          { classId := s!"Total de caideras: {total} | Cadeiras ocupadas: {occupied} | Cadeiras livres: {free}",
            trackId := "",
            confidence := 9/10,
            boundingBox := ⟨⟨0, 0⟩, ⟨1, 0⟩, ⟨1, 1⟩, ⟨0, 1⟩⟩ } : Prediction) ::
          (List.enumFrom 0 s.chair_map).flatMap (fun p =>
            p.2.map (fun pt =>
              let i := p.1
              { classId := if pt.occupied then s!"M{i}(ocupado)" else s!"M{i}(livre)",
                trackId := "",
                confidence := 9/10,
                boundingBox := ⟨⟨pt.x, pt.y⟩, ⟨pt.x + 2, pt.y⟩,
                                ⟨pt.x + 2, pt.y + 2⟩, ⟨pt.x, pt.y + 2⟩⟩ }))) := by
  rw [insertInfo]
  simp only [markers_eq_enumFrom s.chair_map 0]
  simp [addCount, createPoint, markerName, List.append_assoc]

end RoI
